import Mathlib

/-!
Shallow embedding of the stock quote aggregation service in
`src/scripts/stock-api.py` (the nice-clock repository).

Prices and percents are modelled as rationals.  The provider info dict is
an association list from string keys to rational values (a Python dict with
string keys), and the provider's historical close series is a function from
window label to the ordered list of daily closes.  An unhandled Python
exception (KeyError, IndexError) is modelled by `none`; the second component
of the handler's result is the list of window labels for which a historical
fetch was performed (in fetch order), so that "no historical fetch occurs"
is a statement about the code, not a side remark.
-/

namespace NiceClock

/-- A JSON value appearing in a response body: the bodies produced by the
handler only contain strings and numbers. -/
inductive JsonVal where
  | str (s : String)
  | num (q : ℚ)
deriving DecidableEq

/-- A JSON object, as produced by Flask's `jsonify` from a Python dict:
an ordered list of key/value pairs. -/
abbrev JsonObj := List (String × JsonVal)

/-- An HTTP response: a status code and a JSON body. -/
structure HttpResponse where
  status : Nat
  body : JsonObj
deriving DecidableEq

/-- The data the external market-data provider would return for one ticker:
the current-info dict and, for each window label, the ordered series of
daily closing prices. -/
structure Provider where
  info : List (String × ℚ)
  history : String → List ℚ

/-- Python's built-in `round` to an integer: round half to even
(banker's rounding), as used by `round(x, 2)` in the source. -/
def pyRound (x : ℚ) : ℤ :=
  if x - (⌊x⌋ : ℚ) = 1/2 then
    (if ⌊x⌋ % 2 = 0 then ⌊x⌋ else ⌊x⌋ + 1)
  else ⌊x + 1/2⌋

/-- Python's `round(x, 2)`: round to 2 decimal places, half to even. -/
def round2 (x : ℚ) : ℚ := (pyRound (x * 100) : ℚ) / 100

/-- The body of one iteration of the loop in `calulcate_stock_changes`
(stock-api.py lines 40-43): first close is the start price, last close the
end price, percent change rounded to 2 decimals.  `none` models the
IndexError raised by `iloc[0]` / `iloc[-1]` on an empty series. -/
def windowChange (hist : List ℚ) : Option ℚ :=
  match hist.head?, hist.getLast? with
  | some start_price, some end_price =>
      some (round2 (((end_price - start_price) / start_price) * 100))
  | _, _ => none

/-- The `for date in [...]` loop of `calulcate_stock_changes`: builds the
`data` dict in order, aborting with `none` at the first window whose series
is empty.  The second component records which windows were fetched. -/
def histLoop (history : String → List ℚ) :
    List String → Option (List (String × ℚ)) × List String
  | [] => (some [], [])
  | date :: rest =>
    match windowChange (history date) with
    | none => (none, [date])
    | some pct =>
      match histLoop history rest with
      | (none, trace) => (none, date :: trace)
      | (some data, trace) => (some ((date, pct) :: data), date :: trace)

/-- `calulcate_stock_changes` (stock-api.py lines 35-45): percent change
for each of the three windows 1mo, 6mo, 1y, with the list of windows
actually fetched. -/
def calulcate_stock_changes (history : String → List ℚ) :
    Option (List (String × ℚ)) × List String :=
  histLoop history ["1mo", "6mo", "1y"]

/-- The handler `stock_api` (stock-api.py lines 10-32).  Returns the HTTP
response (`none` for an unhandled fault, i.e. a 500-class failure) together
with the list of historical windows fetched.  Dict accesses `info[k]` are
`List.lookup`; a missing key is a KeyError, hence `none`. -/
def stock_api (stock : String) (prov : Provider) :
    Option HttpResponse × List String :=
  let info := prov.info
  if info.lookup "regularMarketPrice" = none then
    (some { status := 400, body := [("error", JsonVal.str "Invalid ticker!")] }, [])
  else
    match info.lookup "previousClose" with
    | none => (none, [])
    | some previous_close =>
      match info.lookup "regularMarketPrice" with
      | none => (none, [])
      | some current_price =>
        let percent_change :=
          round2 (((current_price - previous_close) / previous_close) * 100)
        match calulcate_stock_changes prov.history with
        | (none, trace) => (none, trace)
        | (some historical_percents, trace) =>
          match historical_percents.lookup "1mo", historical_percents.lookup "6mo",
                historical_percents.lookup "1y" with
          | some p1, some p6, some py =>
            (some { status := 200,
                    body := [("stock", JsonVal.str stock),
                             ("price", JsonVal.num (round2 current_price)),
                             ("percent", JsonVal.num percent_change),
                             ("percent_1mo", JsonVal.num p1),
                             ("percent_6mo", JsonVal.num p6),
                             ("percent_1y", JsonVal.num py)] }, trace)
          | _, _, _ => (none, trace)

/-- Concrete provider: current-info response without `regularMarketPrice`
(an unrecognized ticker). -/
def provNoPrice : Provider where
  info := [("previousClose", 100)]
  history := fun _ => []

/-- Concrete provider: previousClose 100, regularMarketPrice 110, every
window series [50, 52, 55]. -/
def provBasic : Provider where
  info := [("previousClose", 100), ("regularMarketPrice", 110)]
  history := fun _ => [50, 52, 55]

/-- A second provider with the same data as `provBasic`, used to exercise
determinism across distinct calls. -/
def provBasicCopy : Provider where
  info := [("previousClose", 100), ("regularMarketPrice", 110)]
  history := fun _ => [50, 52, 55]

/-- Concrete historical series: 1mo first close 50 and last 55, 6mo first
close 200 and last 190, 1y first close 100 and last 110. -/
def histExample : String → List ℚ := fun w =>
  if w = "1mo" then [50, 52, 55]
  else if w = "6mo" then [200, 195, 190]
  else [100, 105, 110]

/-- Concrete provider whose 6mo window has an empty close series. -/
def provEmptyWindow : Provider where
  info := [("previousClose", 100), ("regularMarketPrice", 110)]
  history := fun w => if w = "6mo" then [] else [50, 55]

/-- Concrete provider whose info has `regularMarketPrice` but lacks
`previousClose`. -/
def provNoPrevClose : Provider where
  info := [("regularMarketPrice", 110)]
  history := fun _ => [50, 55]

/-- The AAPL scenario of the spec: previousClose 150, regularMarketPrice
153, 1mo closes from 140 to 153, 6mo from 120 to 153, 1y from 100 to 153. -/
def provAAPL : Provider where
  info := [("previousClose", 150), ("regularMarketPrice", 153)]
  history := fun w =>
    if w = "1mo" then [140, 145, 153]
    else if w = "6mo" then [120, 130, 153]
    else if w = "1y" then [100, 125, 153]
    else []

/-- The success response the handler computes for ticker MSFT against
`provBasic`: price 110, all percent changes 10. -/
def respBasic : HttpResponse where
  status := 200
  body := [("stock", JsonVal.str "MSFT"),
           ("price", JsonVal.num 110),
           ("percent", JsonVal.num 10),
           ("percent_1mo", JsonVal.num 10),
           ("percent_6mo", JsonVal.num 10),
           ("percent_1y", JsonVal.num 10)]

lemma pyRound_eq_of_le (x : ℚ) (n : ℤ) (h1 : (n : ℚ) ≤ x) (h2 : x < (n : ℚ) + 1/2) :
    pyRound x = n := by
  have hf : ⌊x⌋ = n := by
    rw [Int.floor_eq_iff]
    exact ⟨h1, by linarith⟩
  unfold pyRound
  rw [hf, if_neg (by intro h; linarith), Int.floor_eq_iff]
  constructor <;> linarith

lemma pyRound_eq_of_gt (x : ℚ) (n : ℤ) (h1 : (n : ℚ) - 1/2 < x) (h2 : x ≤ (n : ℚ)) :
    pyRound x = n := by
  rcases eq_or_lt_of_le h2 with heq | hlt
  · exact pyRound_eq_of_le x n (le_of_eq heq.symm) (by linarith)
  · have hf : ⌊x⌋ = n - 1 := by
      rw [Int.floor_eq_iff]
      constructor <;> push_cast <;> linarith
    unfold pyRound
    rw [hf, if_neg (by intro h; push_cast at h; linarith), Int.floor_eq_iff]
    constructor <;> linarith

lemma round2_eq_of_le (x : ℚ) (n : ℤ) (h1 : (n : ℚ) ≤ x * 100) (h2 : x * 100 < (n : ℚ) + 1/2) :
    round2 x = (n : ℚ) / 100 := by
  unfold round2
  rw [pyRound_eq_of_le (x * 100) n h1 h2]

lemma round2_eq_of_gt (x : ℚ) (n : ℤ) (h1 : (n : ℚ) - 1/2 < x * 100) (h2 : x * 100 ≤ (n : ℚ)) :
    round2 x = (n : ℚ) / 100 := by
  unfold round2
  rw [pyRound_eq_of_gt (x * 100) n h1 h2]

lemma stock_api_success (stock : String) (prov : Provider) (p c a1 a6 ay : ℚ)
    (hp : prov.info.lookup "previousClose" = some p)
    (hc : prov.info.lookup "regularMarketPrice" = some c)
    (h1 : windowChange (prov.history "1mo") = some a1)
    (h6 : windowChange (prov.history "6mo") = some a6)
    (hy : windowChange (prov.history "1y") = some ay) :
    stock_api stock prov =
      (some { status := 200,
              body := [("stock", JsonVal.str stock),
                       ("price", JsonVal.num (round2 c)),
                       ("percent", JsonVal.num (round2 (((c - p) / p) * 100))),
                       ("percent_1mo", JsonVal.num a1),
                       ("percent_6mo", JsonVal.num a6),
                       ("percent_1y", JsonVal.num ay)] },
       ["1mo", "6mo", "1y"]) := by
  simp [stock_api, calulcate_stock_changes, histLoop, hp, hc, h1, h6, hy, List.lookup]

lemma stock_api_success_inv (stock : String) (prov : Provider) (r : HttpResponse)
    (t : List String) (h : stock_api stock prov = (some r, t)) (hs : r.status = 200) :
    ∃ p c a1 a6 ay,
      prov.info.lookup "previousClose" = some p ∧
      prov.info.lookup "regularMarketPrice" = some c ∧
      r.body = [("stock", JsonVal.str stock),
                ("price", JsonVal.num (round2 c)),
                ("percent", JsonVal.num (round2 (((c - p) / p) * 100))),
                ("percent_1mo", JsonVal.num a1),
                ("percent_6mo", JsonVal.num a6),
                ("percent_1y", JsonVal.num ay)] := by
  simp only [stock_api] at h
  split at h
  · rw [Prod.mk.injEq] at h
    obtain ⟨h400, -⟩ := h
    rw [Option.some.injEq] at h400
    rw [← h400] at hs
    simp at hs
  · split at h
    · simp at h
    · split at h
      · simp at h
      · split at h
        · simp at h
        · split at h
          · rw [Prod.mk.injEq, Option.some.injEq] at h
            obtain ⟨hr, -⟩ := h
            subst hr
            exact ⟨_, _, _, _, _, by assumption, by assumption, rfl⟩
          · simp at h

lemma windowChange_nil : windowChange [] = none := rfl

lemma calulcate_fst_none (h : String → List ℚ) (w : String)
    (hw : w = "1mo" ∨ w = "6mo" ∨ w = "1y") (he : h w = []) :
    (calulcate_stock_changes h).1 = none := by
  rcases hw with rfl | rfl | rfl
  · simp [calulcate_stock_changes, histLoop, he, windowChange_nil]
  · rcases hx : windowChange (h "1mo") with - | a
    · simp [calulcate_stock_changes, histLoop, hx]
    · simp [calulcate_stock_changes, histLoop, hx, he, windowChange_nil]
  · rcases hx : windowChange (h "1mo") with - | a
    · simp [calulcate_stock_changes, histLoop, hx]
    · rcases hx6 : windowChange (h "6mo") with - | b
      · simp [calulcate_stock_changes, histLoop, hx, hx6]
      · simp [calulcate_stock_changes, histLoop, hx, hx6, he, windowChange_nil]

lemma round2_ratio_50_55 : round2 ((((55 : ℚ) - 50) / 50) * 100) = 10 := by
  rw [round2_eq_of_le ((((55 : ℚ) - 50) / 50) * 100) 1000 (by norm_num) (by norm_num)]
  norm_num

lemma round2_ratio_200_190 : round2 ((((190 : ℚ) - 200) / 200) * 100) = -5 := by
  rw [round2_eq_of_le ((((190 : ℚ) - 200) / 200) * 100) (-500) (by norm_num) (by norm_num)]
  norm_num

lemma round2_ratio_100_110 : round2 ((((110 : ℚ) - 100) / 100) * 100) = 10 := by
  rw [round2_eq_of_le ((((110 : ℚ) - 100) / 100) * 100) 1000 (by norm_num) (by norm_num)]
  norm_num

lemma round2_110 : round2 (110 : ℚ) = 110 := by
  rw [round2_eq_of_le (110 : ℚ) 11000 (by norm_num) (by norm_num)]
  norm_num

lemma windowChange_basic :
    windowChange [(50 : ℚ), 52, 55] = some (round2 ((((55 : ℚ) - 50) / 50) * 100)) := rfl

lemma stock_api_provBasic :
    stock_api "MSFT" provBasic = (some respBasic, ["1mo", "6mo", "1y"]) := by
  have hlp : provBasic.info.lookup "previousClose" = some 100 := by
    simp [provBasic, List.lookup]
  have hlc : provBasic.info.lookup "regularMarketPrice" = some 110 := by
    simp [provBasic, List.lookup]
  have hw : ∀ w, windowChange (provBasic.history w) =
      some (round2 ((((55 : ℚ) - 50) / 50) * 100)) := fun _ => rfl
  rw [stock_api_success "MSFT" provBasic 100 110 _ _ _ hlp hlc (hw "1mo") (hw "6mo") (hw "1y")]
  rw [round2_ratio_50_55, round2_ratio_100_110, round2_110]
  rfl

/-- Claim C1: when the provider current-info response omits
`regularMarketPrice`, the handler returns HTTP 400 with body
`{"error": "Invalid ticker!"}` and performs no historical-series fetch
(the fetch trace is empty). -/
theorem invalid_ticker_short_circuits (stock : String) (prov : Provider)
    (h : prov.info.lookup "regularMarketPrice" = none) :
    stock_api stock prov =
      (some { status := 400, body := [("error", JsonVal.str "Invalid ticker!")] }, []) := by
  simp [stock_api, h]

/-- Witness for C1 at the concrete provider `provNoPrice` and ticker FAKE. -/
theorem invalid_ticker_short_circuits_inst :
    provNoPrice.info.lookup "regularMarketPrice" = none ∧
    stock_api "FAKE" provNoPrice =
      (some { status := 400, body := [("error", JsonVal.str "Invalid ticker!")] }, []) := by
  have h : provNoPrice.info.lookup "regularMarketPrice" = none := by
    simp [provNoPrice, List.lookup]
  exact ⟨h, invalid_ticker_short_circuits "FAKE" provNoPrice h⟩

/-- Claim C2: in every success response built from a provider quote with
previousClose `p ≠ 0` and regularMarketPrice `c`, the `percent` field is
`(c - p) / p * 100` rounded to 2 decimal places. -/
theorem percent_change_formula (stock : String) (prov : Provider) (p c : ℚ)
    (r : HttpResponse) (t : List String)
    (hp : prov.info.lookup "previousClose" = some p)
    (hc : prov.info.lookup "regularMarketPrice" = some c)
    (_hpnz : p ≠ 0)
    (h : stock_api stock prov = (some r, t)) (hs : r.status = 200) :
    r.body.lookup "percent" = some (JsonVal.num (round2 (((c - p) / p) * 100))) := by
  obtain ⟨p', c', a1, a6, ay, hp', hc', hbody⟩ := stock_api_success_inv stock prov r t h hs
  rw [hp] at hp'
  rw [hc] at hc'
  obtain rfl : p = p' := Option.some.inj hp'
  obtain rfl : c = c' := Option.some.inj hc'
  rw [hbody]
  simp [List.lookup]

/-- Witness for C2: previousClose 100, regularMarketPrice 110 give
percent 10.0. -/
theorem percent_change_formula_inst :
    provBasic.info.lookup "previousClose" = some 100 ∧
    provBasic.info.lookup "regularMarketPrice" = some 110 ∧
    (100 : ℚ) ≠ 0 ∧
    stock_api "MSFT" provBasic = (some respBasic, ["1mo", "6mo", "1y"]) ∧
    respBasic.status = 200 ∧
    respBasic.body.lookup "percent" = some (JsonVal.num 10) := by
  have hlp : provBasic.info.lookup "previousClose" = some 100 := by
    simp [provBasic, List.lookup]
  have hlc : provBasic.info.lookup "regularMarketPrice" = some 110 := by
    simp [provBasic, List.lookup]
  refine ⟨hlp, hlc, by norm_num, stock_api_provBasic, rfl, ?_⟩
  have hmain := percent_change_formula "MSFT" provBasic 100 110 respBasic
    ["1mo", "6mo", "1y"] hlp hlc (by norm_num) stock_api_provBasic rfl
  rw [round2_ratio_100_110] at hmain
  exact hmain

/-- Claim C5: the rounding applied to every percent and price value rounds
to exactly 2 decimal places: 12.3456 is reported as 12.35, 12.344 as 12.34,
and every rounded value is an integer number of hundredths. -/
theorem round2_two_decimal_places :
    round2 (123456/10000 : ℚ) = 1235/100 ∧
    round2 (12344/1000 : ℚ) = 1234/100 ∧
    ∀ x : ℚ, ∃ n : ℤ, round2 x = (n : ℚ) / 100 := by
  refine ⟨?_, ?_, fun x => ⟨pyRound (x * 100), rfl⟩⟩
  · rw [round2_eq_of_gt (123456/10000 : ℚ) 1235 (by norm_num) (by norm_num)]
    norm_num
  · rw [round2_eq_of_le (12344/1000 : ℚ) 1234 (by norm_num) (by norm_num)]
    norm_num

/-- Claim C6: the handler is deterministic in the provider data - two
calls with the same ticker and extensionally identical provider responses
compute identical results. -/
theorem handler_deterministic (stock : String) (p1 p2 : Provider)
    (hinfo : p1.info = p2.info) (hhist : ∀ w, p1.history w = p2.history w) :
    stock_api stock p1 = stock_api stock p2 := by
  obtain ⟨i1, h1⟩ := p1
  obtain ⟨i2, h2⟩ := p2
  have hi : i1 = i2 := hinfo
  have hh : h1 = h2 := funext fun w => hhist w
  subst hi
  subst hh
  rfl

/-- Witness for C6 at two providers carrying the same data. -/
theorem handler_deterministic_inst :
    provBasic.info = provBasicCopy.info ∧
    (∀ w, provBasic.history w = provBasicCopy.history w) ∧
    stock_api "MSFT" provBasic = stock_api "MSFT" provBasicCopy := by
  exact ⟨rfl, fun _ => rfl,
    handler_deterministic "MSFT" provBasic provBasicCopy rfl (fun _ => rfl)⟩

/-- Claim C9: the ticker-validity check inspects only `regularMarketPrice`;
when it is present but `previousClose` is absent, the handler does not
return the 400 error - the unguarded dict access raises an unhandled
fault (modelled as `none`), before any historical fetch. -/
theorem missing_previous_close_faults (stock : String) (prov : Provider) (c : ℚ)
    (hc : prov.info.lookup "regularMarketPrice" = some c)
    (hp : prov.info.lookup "previousClose" = none) :
    stock_api stock prov = (none, []) := by
  simp [stock_api, hc, hp]

/-- Witness for C9 at a provider whose info has only `regularMarketPrice`. -/
theorem missing_previous_close_faults_inst :
    provNoPrevClose.info.lookup "regularMarketPrice" = some 110 ∧
    provNoPrevClose.info.lookup "previousClose" = none ∧
    stock_api "MSFT" provNoPrevClose = (none, []) := by
  have hc : provNoPrevClose.info.lookup "regularMarketPrice" = some 110 := by
    simp [provNoPrevClose, List.lookup]
  have hp : provNoPrevClose.info.lookup "previousClose" = none := by
    simp [provNoPrevClose, List.lookup]
  exact ⟨hc, hp, missing_previous_close_faults "MSFT" provNoPrevClose 110 hc hp⟩

/-- Claim C3: for each of the three windows, given a non-empty close series
with first element `s ≠ 0` and last element `e`, the window's percent is
`(e - s) / s * 100` rounded to 2 decimals; the result depends only on the
first and last closes of each window. -/
theorem window_percent_formula (h : String → List ℚ) (s1 e1 s6 e6 sy ey : ℚ)
    (hh1 : (h "1mo").head? = some s1) (hl1 : (h "1mo").getLast? = some e1)
    (hh6 : (h "6mo").head? = some s6) (hl6 : (h "6mo").getLast? = some e6)
    (hhy : (h "1y").head? = some sy) (hly : (h "1y").getLast? = some ey)
    (_hs1 : s1 ≠ 0) (_hs6 : s6 ≠ 0) (_hsy : sy ≠ 0) :
    calulcate_stock_changes h =
      (some [("1mo", round2 (((e1 - s1) / s1) * 100)),
             ("6mo", round2 (((e6 - s6) / s6) * 100)),
             ("1y", round2 (((ey - sy) / sy) * 100))],
       ["1mo", "6mo", "1y"]) := by
  have w1 : windowChange (h "1mo") = some (round2 (((e1 - s1) / s1) * 100)) := by
    simp [windowChange, hh1, hl1]
  have w6 : windowChange (h "6mo") = some (round2 (((e6 - s6) / s6) * 100)) := by
    simp [windowChange, hh6, hl6]
  have wy : windowChange (h "1y") = some (round2 (((ey - sy) / sy) * 100)) := by
    simp [windowChange, hhy, hly]
  simp [calulcate_stock_changes, histLoop, w1, w6, wy]

/-- Witness for C3: first close 50, last close 55 yields 10.0 and first
close 200, last close 190 yields -5.0. -/
theorem window_percent_formula_inst :
    (histExample "1mo").head? = some 50 ∧ (histExample "1mo").getLast? = some 55 ∧
    (histExample "6mo").head? = some 200 ∧ (histExample "6mo").getLast? = some 190 ∧
    (histExample "1y").head? = some 100 ∧ (histExample "1y").getLast? = some 110 ∧
    (50 : ℚ) ≠ 0 ∧ (200 : ℚ) ≠ 0 ∧ (100 : ℚ) ≠ 0 ∧
    calulcate_stock_changes histExample =
      (some [("1mo", 10), ("6mo", -5), ("1y", 10)], ["1mo", "6mo", "1y"]) := by
  have hh1 : (histExample "1mo").head? = some 50 := by simp [histExample]
  have hl1 : (histExample "1mo").getLast? = some 55 := by simp [histExample]
  have hh6 : (histExample "6mo").head? = some 200 := by simp [histExample]
  have hl6 : (histExample "6mo").getLast? = some 190 := by simp [histExample]
  have hhy : (histExample "1y").head? = some 100 := by simp [histExample]
  have hly : (histExample "1y").getLast? = some 110 := by simp [histExample]
  have hmain := window_percent_formula histExample 50 55 200 190 100 110
    hh1 hl1 hh6 hl6 hhy hly (by norm_num) (by norm_num) (by norm_num)
  rw [round2_ratio_50_55, round2_ratio_200_190, round2_ratio_100_110] at hmain
  exact ⟨hh1, hl1, hh6, hl6, hhy, hly, by norm_num, by norm_num, by norm_num, hmain⟩

/-- Claim C4: every success response has exactly the fields stock, price,
percent, percent_1mo, percent_6mo, percent_1y, all present together, with
price equal to the provider's regularMarketPrice rounded to 2 decimals. -/
theorem success_fields_complete (stock : String) (prov : Provider) (r : HttpResponse)
    (t : List String) (h : stock_api stock prov = (some r, t)) (hs : r.status = 200) :
    r.body.map Prod.fst =
      ["stock", "price", "percent", "percent_1mo", "percent_6mo", "percent_1y"] ∧
    ∃ c, prov.info.lookup "regularMarketPrice" = some c ∧
      r.body.lookup "price" = some (JsonVal.num (round2 c)) := by
  obtain ⟨p, c, a1, a6, ay, hp, hc, hbody⟩ := stock_api_success_inv stock prov r t h hs
  rw [hbody]
  exact ⟨by simp, c, hc, by simp [List.lookup]⟩

/-- Witness for C4 at the concrete success response `respBasic`. -/
theorem success_fields_complete_inst :
    stock_api "MSFT" provBasic = (some respBasic, ["1mo", "6mo", "1y"]) ∧
    respBasic.status = 200 ∧
    respBasic.body.map Prod.fst =
      ["stock", "price", "percent", "percent_1mo", "percent_6mo", "percent_1y"] ∧
    ∃ c, provBasic.info.lookup "regularMarketPrice" = some c ∧
      respBasic.body.lookup "price" = some (JsonVal.num (round2 c)) := by
  have hmain := success_fields_complete "MSFT" provBasic respBasic
    ["1mo", "6mo", "1y"] stock_api_provBasic rfl
  exact ⟨stock_api_provBasic, rfl, hmain.1, hmain.2⟩

/-- Claim C7: for a provider whose info has the current-price field but
whose close series for one of the three windows is empty, the handler ends
in an unhandled fault (`none`), neither a 400 error nor a success record. -/
theorem empty_series_faults (stock : String) (prov : Provider) (c : ℚ) (w : String)
    (hc : prov.info.lookup "regularMarketPrice" = some c)
    (hw : w = "1mo" ∨ w = "6mo" ∨ w = "1y")
    (he : prov.history w = []) :
    (stock_api stock prov).1 = none := by
  have hnone := calulcate_fst_none prov.history w hw he
  rcases hp : prov.info.lookup "previousClose" with - | p
  · simp [stock_api, hc, hp]
  · rcases hcc : calulcate_stock_changes prov.history with ⟨o, t⟩
    rw [hcc] at hnone
    obtain rfl : o = none := hnone
    simp [stock_api, hc, hp, hcc]

/-- Witness for C7 at a provider whose 6mo series is empty. -/
theorem empty_series_faults_inst :
    provEmptyWindow.info.lookup "regularMarketPrice" = some 110 ∧
    provEmptyWindow.history "6mo" = [] ∧
    (stock_api "MSFT" provEmptyWindow).1 = none := by
  have hc : provEmptyWindow.info.lookup "regularMarketPrice" = some 110 := by
    simp [provEmptyWindow, List.lookup]
  have he : provEmptyWindow.history "6mo" = [] := by simp [provEmptyWindow]
  exact ⟨hc, he,
    empty_series_faults "MSFT" provEmptyWindow 110 "6mo" hc (Or.inr (Or.inl rfl)) he⟩

/-- Claim C8: the concrete AAPL scenario - previousClose 150,
regularMarketPrice 153, 1mo closes 140..153, 6mo closes 120..153, 1y closes
100..153 - yields stock AAPL, price 153, percent 2, percent_1mo 9.29,
percent_6mo 27.5, percent_1y 53. -/
theorem aapl_scenario :
    stock_api "AAPL" provAAPL =
      (some { status := 200,
              body := [("stock", JsonVal.str "AAPL"),
                       ("price", JsonVal.num 153),
                       ("percent", JsonVal.num 2),
                       ("percent_1mo", JsonVal.num (929/100)),
                       ("percent_6mo", JsonVal.num (55/2)),
                       ("percent_1y", JsonVal.num 53)] },
       ["1mo", "6mo", "1y"]) := by
  have hlp : provAAPL.info.lookup "previousClose" = some 150 := by
    simp [provAAPL, List.lookup]
  have hlc : provAAPL.info.lookup "regularMarketPrice" = some 153 := by
    simp [provAAPL, List.lookup]
  have e1 : provAAPL.history "1mo" = [140, 145, 153] := by simp [provAAPL]
  have e6 : provAAPL.history "6mo" = [120, 130, 153] := by simp [provAAPL]
  have ey : provAAPL.history "1y" = [100, 125, 153] := by simp [provAAPL]
  have hw1 : windowChange (provAAPL.history "1mo") =
      some (round2 ((((153 : ℚ) - 140) / 140) * 100)) := by
    rw [e1]
    rfl
  have hw6 : windowChange (provAAPL.history "6mo") =
      some (round2 ((((153 : ℚ) - 120) / 120) * 100)) := by
    rw [e6]
    rfl
  have hwy : windowChange (provAAPL.history "1y") =
      some (round2 ((((153 : ℚ) - 100) / 100) * 100)) := by
    rw [ey]
    rfl
  have r1 : round2 ((((153 : ℚ) - 140) / 140) * 100) = 929/100 := by
    rw [round2_eq_of_gt ((((153 : ℚ) - 140) / 140) * 100) 929 (by norm_num) (by norm_num)]
    norm_num
  have r6 : round2 ((((153 : ℚ) - 120) / 120) * 100) = 55/2 := by
    rw [round2_eq_of_le ((((153 : ℚ) - 120) / 120) * 100) 2750 (by norm_num) (by norm_num)]
    norm_num
  have ry : round2 ((((153 : ℚ) - 100) / 100) * 100) = 53 := by
    rw [round2_eq_of_le ((((153 : ℚ) - 100) / 100) * 100) 5300 (by norm_num) (by norm_num)]
    norm_num
  have rp : round2 (153 : ℚ) = 153 := by
    rw [round2_eq_of_le (153 : ℚ) 15300 (by norm_num) (by norm_num)]
    norm_num
  have rpc : round2 ((((153 : ℚ) - 150) / 150) * 100) = 2 := by
    rw [round2_eq_of_le ((((153 : ℚ) - 150) / 150) * 100) 200 (by norm_num) (by norm_num)]
    norm_num
  rw [stock_api_success "AAPL" provAAPL 150 153 _ _ _ hlp hlc hw1 hw6 hwy,
      r1, r6, ry, rp, rpc]

/-- Claim C10: in every success response the stock field is the ticker path
parameter echoed verbatim. -/
theorem stock_field_echoes_ticker (stock : String) (prov : Provider) (r : HttpResponse)
    (t : List String) (h : stock_api stock prov = (some r, t)) (hs : r.status = 200) :
    r.body.lookup "stock" = some (JsonVal.str stock) := by
  obtain ⟨p, c, a1, a6, ay, -, -, hbody⟩ := stock_api_success_inv stock prov r t h hs
  rw [hbody]
  simp [List.lookup]

/-- Witness for C10 at ticker MSFT. -/
theorem stock_field_echoes_ticker_inst :
    stock_api "MSFT" provBasic = (some respBasic, ["1mo", "6mo", "1y"]) ∧
    respBasic.status = 200 ∧
    respBasic.body.lookup "stock" = some (JsonVal.str "MSFT") := by
  exact ⟨stock_api_provBasic, rfl,
    stock_field_echoes_ticker "MSFT" provBasic respBasic ["1mo", "6mo", "1y"]
      stock_api_provBasic rfl⟩

end NiceClock
